import Mathlib

/-!
Formal model of the scoring engine of `src/streamlit_app.py`
(placemakingmx/placegamedraft).

Python floats are modelled as rationals (`ℚ`), `None` as `Option.none`,
dictionaries as association lists looked up with `dict_get`.  Every
definition is a direct transcription of the corresponding Python
function; line references point into `src/streamlit_app.py`.
-/

/-- Python `dict.get(k)` on an association list: first binding wins. -/
def dict_get {α : Type} : List (String × α) → String → Option α
  | [], _ => none
  | p :: ps, k => if p.1 = k then some p.2 else dict_get ps k

/-- `nz(x, default=0.0)` (line 1356): replace `None` by `0`. -/
def nz (x : Option ℚ) : ℚ := x.getD 0

/-- One entry of `PROGRAM_CONFIG`: per-attribute indicator-weight
overrides and section weights. -/
structure ProgramCfg where
  indicator_weights : List (String × List (String × ℚ))
  section_weights : List (String × ℚ)
  deriving DecidableEq

/-- `COMMON_SECTION_WEIGHTS` (line 270). -/
def COMMON_SECTION_WEIGHTS : List (String × ℚ) :=
  [("Encuentro", 0.25), ("Conexiones", 0.25), ("Comodidad", 0.25), ("Usos", 0.25)]

/-- `PROGRAM_CONFIG` (lines 277-482), in source order. -/
def PROGRAM_CONFIG : List (String × ProgramCfg) :=
  [ ("OTRO", ⟨[], COMMON_SECTION_WEIGHTS⟩),
    ("FIESTA",
      ⟨[("A2", [("A2.1", 0.7), ("A2.3", 0.7), ("A2.6", 1.5)]),
        ("A4", [("A4.4", 0.3)])], COMMON_SECTION_WEIGHTS⟩),
    ("LAPIS_PRIV",
      ⟨[("A2", [("A2.1", 0.7), ("A2.3", 0.7), ("A2.6", 1.5)]),
        ("A3", [("A3.3", 1.5)]),
        ("A4", [("A4.4", 0.3)])], COMMON_SECTION_WEIGHTS⟩),
    ("LAPIS_PUB",
      ⟨[("A1", [("A1.2", 0.0), ("A1.5", 0.0)]),
        ("A2", [("A2.1", 0.7), ("A2.3", 0.7), ("A2.6", 1.5)]),
        ("A3", [("A3.3", 1.5)]),
        ("A4", [("A4.4", 0.3)])], COMMON_SECTION_WEIGHTS⟩),
    ("LAPIS_PLUS",
      ⟨[("A2", [("A2.1", 0.7), ("A2.3", 0.7), ("A2.6", 1.5)]),
        ("A3", [("A3.3", 1.5)]),
        ("A4", [("A4.4", 0.3)])], COMMON_SECTION_WEIGHTS⟩),
    ("PINTA_CANCHA",
      ⟨[("A2", [("A2.1", 0.7), ("A2.3", 0.7), ("A2.6", 1.5)]),
        ("A3", [("A3.3", 0.5)]),
        ("A4", [("A4.4", 0.3)])], COMMON_SECTION_WEIGHTS⟩),
    ("CANCHAS_PM",
      ⟨[("A2", [("A2.1", 0.7), ("A2.3", 0.7), ("A2.6", 1.5)]),
        ("A3", [("A3.3", 0.5)]),
        ("A4", [("A4.4", 0.3)])], COMMON_SECTION_WEIGHTS⟩),
    ("REL_COM",
      ⟨[("A2", [("A2.1", 0.7), ("A2.2", 1.5), ("A2.3", 0.7), ("A2.6", 1.5)]),
        ("A4", [("A4.4", 0.3)])], COMMON_SECTION_WEIGHTS⟩),
    ("BACKING",
      ⟨[("A2", [("A2.1", 0.7), ("A2.3", 0.7)]),
        ("A4", [("A4.4", 2.5), ("A4.5", 0.3)])], COMMON_SECTION_WEIGHTS⟩),
    ("MENU_DIA",
      ⟨[("A2", [("A2.1", 0.7), ("A2.3", 0.7)]),
        ("A4", [("A4.4", 2.5), ("A4.5", 0.3)])], COMMON_SECTION_WEIGHTS⟩),
    ("SHE",
      ⟨[("A1", [("A1.1", 0.0), ("A1.2", 0.0), ("A1.5", 2.0)]),
        ("A2", [("A2.1", 0.7), ("A2.2", 1.5), ("A2.3", 0.7)]),
        ("A3", [("A3.3", 0.5)]),
        ("A4", [("A4.4", 0.3)])], COMMON_SECTION_WEIGHTS⟩),
    ("ECO_ADAPT",
      ⟨[("A2", [("A2.1", 0.7), ("A2.3", 0.7)]),
        ("A4", [("A4.4", 0.3)])], COMMON_SECTION_WEIGHTS⟩),
    ("SALUD_DIGNA",
      ⟨[("A2", [("A2.1", 0.7), ("A2.3", 0.7)]),
        ("A4", [("A4.4", 0.3)])], COMMON_SECTION_WEIGHTS⟩),
    ("PM_CAMP", ⟨[], COMMON_SECTION_WEIGHTS⟩) ]

/-- `PROGRAM_CONFIG.get(program_id, {}).get("indicator_weights", {}).get(attribute_id, {})`
(lines 1363-1364). -/
def attr_weights_of (program_id attribute_id : String) : List (String × ℚ) :=
  match dict_get PROGRAM_CONFIG program_id with
  | none => []
  | some cfg => (dict_get cfg.indicator_weights attribute_id).getD []

/-- `get_indicator_weights` (lines 1361-1370). -/
def get_indicator_weights (program_id attribute_id : String)
    (indicators : List (String × Option ℚ)) : List (String × ℚ) :=
  let attr_weights := attr_weights_of program_id attribute_id
  if attr_weights.isEmpty then indicators.map (fun p => (p.1, 1))
  else indicators.map (fun p => (p.1, (dict_get attr_weights p.1).getD 1))

/-- `program_cfg.get("section_weights", COMMON_SECTION_WEIGHTS)` (lines 1375-1376). -/
def raw_section_weights (program_id : String) : List (String × ℚ) :=
  match dict_get PROGRAM_CONFIG program_id with
  | none => COMMON_SECTION_WEIGHTS
  | some cfg => cfg.section_weights

/-- Normalization step of `get_section_weights` (lines 1377-1380):
divide by the total unless it is zero. -/
def normalize_weights (section_weights : List (String × ℚ)) : List (String × ℚ) :=
  let total := (section_weights.map (fun p => p.2)).sum
  if total = 0 then section_weights
  else section_weights.map (fun p => (p.1, p.2 / total))

/-- `get_section_weights` (lines 1373-1380). -/
def get_section_weights (program_id : String) : List (String × ℚ) :=
  normalize_weights (raw_section_weights program_id)

/-- `compute_attribute_total` (lines 1383-1396): weighted average over
present indicator values, `0.0` when the set is empty or the present
weight mass is not positive. -/
def compute_attribute_total (program_id attribute_id : String)
    (indicators : List (String × Option ℚ)) : ℚ :=
  if indicators.isEmpty then 0
  else
    let weights := get_indicator_weights program_id attribute_id indicators
    let nd := indicators.foldl (fun acc p =>
      match p.2 with
      | none => acc
      | some value =>
          (acc.1 + (dict_get weights p.1).getD 1 * value,
           acc.2 + (dict_get weights p.1).getD 1)) ((0 : ℚ), (0 : ℚ))
    if 0 < nd.2 then nd.1 / nd.2 else 0

/-- `compute_section_scores` (lines 1399-1406). -/
def compute_section_scores (A1_total A2_total A3_total A4_total : ℚ) :
    List (String × Option ℚ) :=
  [("Encuentro", some A1_total), ("Conexiones", some A2_total),
   ("Comodidad", some A3_total), ("Usos", some A4_total)]

/-- Body of `compute_global_score` (lines 1409-1422), parametrized by the
raw (pre-normalization) section-weight table it normalizes and uses. -/
def global_score_core (raw_weights : List (String × ℚ))
    (section_scores : List (String × Option ℚ)) : ℚ :=
  if section_scores.isEmpty then 0
  else
    let section_weights := normalize_weights raw_weights
    let nd := section_scores.foldl (fun acc p =>
      match p.2 with
      | none => acc
      | some value =>
          (acc.1 + (dict_get section_weights p.1).getD 0 * value,
           acc.2 + (dict_get section_weights p.1).getD 0)) ((0 : ℚ), (0 : ℚ))
    if 0 < nd.2 then nd.1 / nd.2 else 0

/-- `compute_global_score` (lines 1409-1422): it uses
`get_section_weights program_id = normalize_weights (raw_section_weights program_id)`. -/
def compute_global_score (program_id : String)
    (section_scores : List (String × Option ℚ)) : ℚ :=
  global_score_core (raw_section_weights program_id) section_scores

/-- `score_1_3_100_50_10` (lines 1428-1435). -/
def score_1_3_100_50_10 (x : Option ℚ) : Option ℚ :=
  if x = some 1 then some 100
  else if x = some 2 then some 50
  else if x = some 3 then some 10
  else none

/-- `score_1_3_10_50_100` (lines 1438-1445). -/
def score_1_3_10_50_100 (x : Option ℚ) : Option ℚ :=
  if x = some 1 then some 10
  else if x = some 2 then some 50
  else if x = some 3 then some 100
  else none

/-- `score_1_4_100_75_50_25` (lines 1448-1457). -/
def score_1_4_100_75_50_25 (x : Option ℚ) : Option ℚ :=
  if x = some 1 then some 100
  else if x = some 2 then some 75
  else if x = some 3 then some 50
  else if x = some 4 then some 25
  else none

/-- `score_1_4_100_60_20_10` (lines 1460-1469). -/
def score_1_4_100_60_20_10 (x : Option ℚ) : Option ℚ :=
  if x = some 1 then some 100
  else if x = some 2 then some 60
  else if x = some 3 then some 20
  else if x = some 4 then some 10
  else none

/-- `score_A1_5_1` (lines 1477-1485): 1→100, 2→10, 3→5. -/
def score_A1_5_1 (a15_1 : Option ℚ) : Option ℚ :=
  if a15_1 = some 1 then some 100
  else if a15_1 = some 2 then some 10
  else if a15_1 = some 3 then some 5
  else none

/-- `score_A1_2_3` (lines 1519-1526): 1→100, 2→1, 3→5. -/
def score_A1_2_3 (a12_3 : Option ℚ) : Option ℚ :=
  if a12_3 = some 1 then some 100
  else if a12_3 = some 2 then some 1
  else if a12_3 = some 3 then some 5
  else none

/-- `calc_A1_1` (lines 1491-1499): asymmetric blend of the two raw
measurements; the second one absent degrades to the first. -/
def calc_A1_1 (a11_1 a11_2 : Option ℚ) : Option ℚ :=
  match a11_1 with
  | none => none
  | some x =>
    match a11_2 with
    | none => some x
    | some y =>
        if x ≥ y then some (0.85 * x + 0.15 * y)
        else some (0.60 * x + 0.40 * y)

/-- `calc_A1_5` (lines 1556-1564): night-use indicator. -/
def calc_A1_5 (a12_3 a15_1 a15_2 : Option ℚ) : Option ℚ :=
  let S51 := score_A1_5_1 a15_1
  let S52 := score_1_4_100_60_20_10 a15_2
  let S23 := score_A1_2_3 a12_3
  if a15_1 = some 1 then S51
  else
    match S52, S23 with
    | some s52, some s23 => some (0.5 * s52 + s23)
    | _, _ => none

/-- `v is not None and v > 0` on an optional value. -/
def isPos : Option ℚ → Bool
  | some x => decide (0 < x)
  | none => false

/-- `v is None or v <= 0` on an optional value. -/
def npos : Option ℚ → Bool
  | none => true
  | some x => decide (x ≤ 0)

/-- `calc_A2_1` (lines 1588-1615): transport-mode indicator. -/
def calc_A2_1 (a_walk a_bike a_pt a_car a21_2 : Option ℚ) : Option ℚ :=
  if isPos a_walk || isPos a_bike || isPos a_pt || isPos a_car then
    let walk := nz a_walk
    let bike := nz a_bike
    let pt := nz a_pt
    let car := nz a_car
    let active := walk + bike
    if active > 50 then some 100
    else if pt > 50 then some 80
    else if car > 50 then some 50
    else
      let total := active + pt + car
      if total ≤ 0 then none
      else some ((1 * active + 0.8 * pt + 0.5 * car) / max total 1 * 100)
  else
    if a21_2 = some 1 then some 50
    else if a21_2 = some 2 then some 60
    else if a21_2 = some 3 then some 90
    else if a21_2 = some 4 then some 100
    else none

/-- `calc_A4_1` (lines 1763-1785): growth-ratio indicator. -/
def calc_A4_1 (a41_1 a41_before a41_after a41_2 : Option ℚ) : Option ℚ :=
  if a41_1 = some 1 then
    if npos a41_before && npos a41_after then some 0
    else if npos a41_before then
      if isPos a41_after then some 100 else some 0
    else
      match a41_before, a41_after with
      | some b, some a =>
          let g := (a - b) / b * 100
          if g ≤ 0 then some 0
          else if g ≥ 100 then some 100
          else some g
      | some _, none => some 0
      | none, _ => some 0
  else if a41_1 = some 2 then score_1_3_100_50_10 a41_2
  else none

/-- `calc_A4_5` (lines 1832-1836): clamp the 0-10 activity count and
rescale to 0-100; an absent input propagates as absent. -/
def calc_A4_5 (a45_1 : Option ℚ) : Option ℚ :=
  match a45_1 with
  | none => none
  | some v => some (10 * max 0 (min 10 v))

/-- `a45_1 = ans.get("a45_1", 0)` in `pagina_resultados` (line 2747):
a missing key is silently replaced by `0`. -/
def pagina_a45_1 (ans : List (String × ℚ)) : ℚ :=
  (dict_get ans "a45_1").getD 0

/-- `A4_5 = calc_A4_5(a45_1)` as called from `pagina_resultados`
(lines 2747 and 2753). -/
def pagina_A4_5 (ans : List (String × ℚ)) : Option ℚ :=
  calc_A4_5 (some (pagina_a45_1 ans))

/-- Totals-and-global part of `pagina_resultados` (lines 2775-2781):
the four attribute totals followed by the global score. -/
def evaluate_totals (program_id : String)
    (A1_indicators A2_indicators A3_indicators A4_indicators :
      List (String × Option ℚ)) : ℚ × ℚ × ℚ × ℚ × ℚ :=
  let A1_total := compute_attribute_total program_id "A1" A1_indicators
  let A2_total := compute_attribute_total program_id "A2" A2_indicators
  let A3_total := compute_attribute_total program_id "A3" A3_indicators
  let A4_total := compute_attribute_total program_id "A4" A4_indicators
  (A1_total, A2_total, A3_total, A4_total,
   compute_global_score program_id
     (compute_section_scores A1_total A2_total A3_total A4_total))

/-! ### Helper lemmas -/

/-- Folding the attribute accumulator over entries that are all absent
leaves the accumulator unchanged. -/
theorem attr_fold_skip (W : List (String × ℚ)) (l : List (String × Option ℚ))
    (acc : ℚ × ℚ) (h : ∀ q ∈ l, q.2 = none) :
    l.foldl (fun acc p =>
      match p.2 with
      | none => acc
      | some value =>
          (acc.1 + (dict_get W p.1).getD 1 * value,
           acc.2 + (dict_get W p.1).getD 1)) acc = acc := by
  induction l generalizing acc with
  | nil => rfl
  | cons q qs ih =>
      have hq : q.2 = none := h q (List.mem_cons_self q qs)
      simp only [List.foldl_cons, hq]
      exact ih acc fun r hr => h r (List.mem_cons_of_mem _ hr)

/-- `dict_get` on a key-preserving map of a table. -/
theorem dict_get_map_keys (g : String → ℚ) (l : List (String × Option ℚ)) (k : String) :
    dict_get (l.map (fun p => (p.1, g p.1))) k = (dict_get l k).map (fun _ => g k) := by
  induction l with
  | nil => rfl
  | cons q qs ih =>
      by_cases h : q.1 = k
      · simp [dict_get, h]
      · simp [dict_get, h, ih]

/-- `get_indicator_weights` always assigns each indicator key the weight
`attr_weights.get(key, 1.0)` (the short-circuit for an empty override
table coincides with the pointwise default). -/
theorem get_indicator_weights_map_form (pid attr : String)
    (inds : List (String × Option ℚ)) :
    get_indicator_weights pid attr inds =
      inds.map (fun p => (p.1, (dict_get (attr_weights_of pid attr) p.1).getD 1)) := by
  unfold get_indicator_weights
  cases haw : attr_weights_of pid attr with
  | nil => simp [dict_get]
  | cons q qs => simp

/-- A key written in the middle of an association list is found. -/
theorem dict_get_append_mid (l₁ l₂ : List (String × Option ℚ)) (k : String) (v : Option ℚ) :
    (dict_get (l₁ ++ (k, v) :: l₂) k).isSome = true := by
  induction l₁ with
  | nil => simp [dict_get]
  | cons q qs ih =>
      by_cases h : q.1 = k
      · simp [dict_get, h]
      · simp [dict_get, h, ih]

/-- For a key present in the indicator map, the weight used by the
aggregation is exactly the configured override (default `1`). -/
theorem weight_of_present (pid attr : String) (l₁ l₂ : List (String × Option ℚ))
    (k : String) (v : Option ℚ) :
    (dict_get (get_indicator_weights pid attr (l₁ ++ (k, v) :: l₂)) k).getD 1 =
      (dict_get (attr_weights_of pid attr) k).getD 1 := by
  rw [get_indicator_weights_map_form,
    dict_get_map_keys (fun x => (dict_get (attr_weights_of pid attr) x).getD 1)]
  have hs := dict_get_append_mid l₁ l₂ k v
  cases hdg : dict_get (l₁ ++ (k, v) :: l₂) k with
  | none => rw [hdg] at hs; simp at hs
  | some u => simp

/-- Scaling every weight scales the weight total. -/
theorem sum_map_scale (c : ℚ) (l : List (String × ℚ)) :
    ((l.map (fun p => (p.1, c * p.2))).map (fun p => p.2)).sum =
      c * (l.map (fun p => p.2)).sum := by
  induction l with
  | nil => simp
  | cons q qs ih =>
      simp only [List.map_cons, List.sum_cons, ih]
      ring

/-- `dict_get` on a uniformly scaled weight table. -/
theorem dict_get_scale (c : ℚ) (l : List (String × ℚ)) (k : String) :
    dict_get (l.map (fun p => (p.1, c * p.2))) k = (dict_get l k).map (fun v => c * v) := by
  induction l with
  | nil => rfl
  | cons q qs ih =>
      by_cases h : q.1 = k
      · simp [dict_get, h]
      · simp [dict_get, h, ih]

/-- When the weight total is nonzero, normalization erases a uniform
positive scaling. -/
theorem normalize_weights_scale_ne (c : ℚ) (hc : c ≠ 0) (l : List (String × ℚ))
    (h : (l.map (fun p => p.2)).sum ≠ 0) :
    normalize_weights (l.map (fun p => (p.1, c * p.2))) = normalize_weights l := by
  unfold normalize_weights
  rw [sum_map_scale]
  rw [if_neg (mul_ne_zero hc h), if_neg h, List.map_map]
  congr 1
  funext p
  simp only [Function.comp_apply]
  rw [mul_div_mul_left _ _ hc]

/-- When the weight total is zero, normalization is the identity, both
before and after a uniform scaling. -/
theorem normalize_weights_scale_zero (c : ℚ) (l : List (String × ℚ))
    (h : (l.map (fun p => p.2)).sum = 0) :
    normalize_weights (l.map (fun p => (p.1, c * p.2))) = l.map (fun p => (p.1, c * p.2)) ∧
    normalize_weights l = l := by
  unfold normalize_weights
  rw [sum_map_scale, h, mul_zero]
  simp

/-- Scaling the weight table scales both components of the global-score
accumulator. -/
theorem global_fold_scale (c : ℚ) (W : List (String × ℚ))
    (scores : List (String × Option ℚ)) (x y : ℚ) :
    scores.foldl (fun acc p =>
      match p.2 with
      | none => acc
      | some value =>
          (acc.1 + (dict_get (W.map (fun q => (q.1, c * q.2))) p.1).getD 0 * value,
           acc.2 + (dict_get (W.map (fun q => (q.1, c * q.2))) p.1).getD 0)) (c * x, c * y) =
    (c * (scores.foldl (fun acc p =>
      match p.2 with
      | none => acc
      | some value =>
          (acc.1 + (dict_get W p.1).getD 0 * value,
           acc.2 + (dict_get W p.1).getD 0)) (x, y)).1,
     c * (scores.foldl (fun acc p =>
      match p.2 with
      | none => acc
      | some value =>
          (acc.1 + (dict_get W p.1).getD 0 * value,
           acc.2 + (dict_get W p.1).getD 0)) (x, y)).2) := by
  induction scores generalizing x y with
  | nil => simp
  | cons q qs ih =>
      cases hq : q.2 with
      | none => simp only [List.foldl_cons, hq]; exact ih x y
      | some v =>
          have hw : (dict_get (W.map (fun q => (q.1, c * q.2))) q.1).getD 0 =
              c * (dict_get W q.1).getD 0 := by
            rw [dict_get_scale]
            cases dict_get W q.1 <;> simp
          simp only [List.foldl_cons, hq, hw]
          have e1 : c * x + c * (dict_get W q.1).getD 0 * v =
              c * (x + (dict_get W q.1).getD 0 * v) := by ring
          have e2 : c * y + c * (dict_get W q.1).getD 0 =
              c * (y + (dict_get W q.1).getD 0) := by ring
          rw [e1, e2, ih]

/-! ### Claims -/

/-- Claim C1: the spec's indicator contract requires every indicator to be
absent or in `[0,100]`, yet the night-use indicator `calc_A1_5` adds the
full mapped `a12_3` score to the `0.5`-weighted mapped `a15_2` score and
reaches `150` on the inputs `a12_3 = 1`, `a15_1 = 2`, `a15_2 = 1`. -/
theorem calc_A1_5_exceeds_100 :
    calc_A1_5 (some 1) (some 2) (some 1) = some 150 ∧ (100 : ℚ) < 150 := by
  constructor
  · norm_num [calc_A1_5, score_A1_5_1, score_1_4_100_60_20_10, score_A1_2_3]
  · norm_num

/-- Claim C2: `calc_A4_5` itself maps an absent `a45_1` to an absent
indicator, but `pagina_resultados` fetches the answer with
`ans.get("a45_1", 0)`, so on an answer record without the key `a45_1`
the indicator A4.5 becomes the score `0`, not absent. -/
theorem pagina_A4_5_missing_key_is_zero :
    pagina_A4_5 [] = some 0 ∧ calc_A4_5 none = none := by
  constructor
  · norm_num [pagina_A4_5, pagina_a45_1, calc_A4_5, dict_get]
  · rfl

/-- Claim C8: with both measurements present, `calc_A1_1` blends them
`0.85/0.15` when the first is at least the second and `0.60/0.40`
otherwise; on `(80,60)` it yields `77` and on `(40,90)` it yields `60`. -/
theorem calc_A1_1_asymmetric_blend (a b : ℚ) :
    calc_A1_1 (some a) (some b) =
      some (if a ≥ b then 0.85 * a + 0.15 * b else 0.60 * a + 0.40 * b) ∧
    calc_A1_1 (some 80) (some 60) = some 77 ∧
    calc_A1_1 (some 40) (some 90) = some 60 := by
  refine ⟨?_, ?_, ?_⟩
  · by_cases h : a ≥ b <;> simp [calc_A1_1, h]
  · norm_num [calc_A1_1]
  · norm_num [calc_A1_1]

/-- Claim C10: with the first measurement present and the second absent,
`calc_A1_1` returns the first measurement unchanged, not absent. -/
theorem calc_A1_1_second_absent_identity (a : ℚ) :
    calc_A1_1 (some a) none = some a := rfl

/-- Claim C9: each mapping function returns absent on every input outside
its finite code domain, the absent input included. -/
theorem mapping_functions_absent_outside_domain (x : Option ℚ) :
    (x ∉ [some (1 : ℚ), some 2, some 3] →
      score_1_3_100_50_10 x = none ∧ score_1_3_10_50_100 x = none ∧
      score_A1_5_1 x = none ∧ score_A1_2_3 x = none) ∧
    (x ∉ [some (1 : ℚ), some 2, some 3, some 4] →
      score_1_4_100_75_50_25 x = none ∧ score_1_4_100_60_20_10 x = none) := by
  constructor
  · intro h
    simp only [List.mem_cons, List.not_mem_nil, or_false, not_or] at h
    obtain ⟨h1, h2, h3⟩ := h
    exact ⟨by simp [score_1_3_100_50_10, h1, h2, h3],
           by simp [score_1_3_10_50_100, h1, h2, h3],
           by simp [score_A1_5_1, h1, h2, h3],
           by simp [score_A1_2_3, h1, h2, h3]⟩
  · intro h
    simp only [List.mem_cons, List.not_mem_nil, or_false, not_or] at h
    obtain ⟨h1, h2, h3, h4⟩ := h
    exact ⟨by simp [score_1_4_100_75_50_25, h1, h2, h3, h4],
           by simp [score_1_4_100_60_20_10, h1, h2, h3, h4]⟩

/-- Witness for C9 at the absent input. -/
theorem mapping_functions_absent_outside_domain_witness :
    ((none : Option ℚ) ∉ [some (1 : ℚ), some 2, some 3]) ∧
    ((none : Option ℚ) ∉ [some (1 : ℚ), some 2, some 3, some 4]) ∧
    score_1_3_100_50_10 none = none ∧ score_1_4_100_75_50_25 none = none :=
  ⟨by simp, by simp,
   ((mapping_functions_absent_outside_domain none).1 (by simp)).1,
   ((mapping_functions_absent_outside_domain none).2 (by simp)).1⟩

/-- Claim C7: with the gating answer `a41_1 = 1` and a positive baseline,
`calc_A4_1` returns the percentage growth clamped to `[0,100]`; the
spec's boundary cases `(0,0) → 0`, `(0,50) → 100`, `(100,150) → 50`,
`(100,50) → 0` and a missing "after" value `→ 0` all hold. -/
theorem calc_A4_1_growth_clamped (b a : ℚ) (hb : 0 < b) :
    calc_A4_1 (some 1) (some b) (some a) none =
      some (if (a - b) / b * 100 ≤ 0 then 0
            else if (a - b) / b * 100 ≥ 100 then 100
            else (a - b) / b * 100) ∧
    calc_A4_1 (some 1) (some 0) (some 0) none = some 0 ∧
    calc_A4_1 (some 1) (some 0) (some 50) none = some 100 ∧
    calc_A4_1 (some 1) (some 100) (some 150) none = some 50 ∧
    calc_A4_1 (some 1) (some 100) (some 50) none = some 0 ∧
    calc_A4_1 (some 1) (some 100) none none = some 0 := by
  refine ⟨?_, ?_, ?_, ?_, ?_, ?_⟩
  · simp only [calc_A4_1, npos, hb.not_le]
    simp [hb.not_le]
    split_ifs <;> rfl
  · norm_num [calc_A4_1, npos, isPos]
  · norm_num [calc_A4_1, npos, isPos]
  · norm_num [calc_A4_1, npos, isPos]
  · norm_num [calc_A4_1, npos, isPos]
  · norm_num [calc_A4_1, npos, isPos]

/-- Witness for C7 at baseline `4`, count `5` (25% growth). -/
theorem calc_A4_1_growth_clamped_witness :
    (0 : ℚ) < 4 ∧
    calc_A4_1 (some 1) (some 4) (some 5) none =
      some (if ((5 : ℚ) - 4) / 4 * 100 ≤ 0 then 0
            else if ((5 : ℚ) - 4) / 4 * 100 ≥ 100 then 100
            else ((5 : ℚ) - 4) / 4 * 100) :=
  ⟨by norm_num, (calc_A4_1_growth_clamped 4 5 (by norm_num)).1⟩

/-- Claim C6: with modal-share percentages present (at least one positive),
`calc_A2_1` returns `100` when walk+bike exceeds `50`, else `80` when
transit exceeds `50`, else `50` when car exceeds `50`, else the weighted
share `(1*active + 0.8*pt + 0.5*car) / denominator * 100` where the
denominator is the guarded `max total 1` (equal to `active+pt+car`
whenever the total is at least `1`, and `none` on a nonpositive total);
the spec's three concrete cases evaluate to `100`, `80` and `74`. -/
theorem calc_A2_1_transport_mode (w b p c : ℚ)
    (h : 0 < w ∨ 0 < b ∨ 0 < p ∨ 0 < c) :
    (calc_A2_1 (some w) (some b) (some p) (some c) none =
      if w + b > 50 then some 100
      else if p > 50 then some 80
      else if c > 50 then some 50
      else if w + b + p + c ≤ 0 then none
      else some ((1 * (w + b) + 0.8 * p + 0.5 * c) / max (w + b + p + c) 1 * 100)) ∧
    (¬ w + b > 50 → ¬ p > 50 → ¬ c > 50 → 1 ≤ w + b + p + c →
      calc_A2_1 (some w) (some b) (some p) (some c) none =
        some ((1 * (w + b) + 0.8 * p + 0.5 * c) / (w + b + p + c) * 100)) ∧
    calc_A2_1 (some 60) (some 0) (some 0) (some 40) none = some 100 ∧
    calc_A2_1 (some 0) (some 0) (some 60) (some 40) none = some 80 ∧
    calc_A2_1 (some 20) (some 10) (some 30) (some 40) none = some 74 := by
  have hguard : (isPos (some w) || isPos (some b) || isPos (some p) || isPos (some c)) = true := by
    simp only [isPos, Bool.or_eq_true, decide_eq_true_eq]
    tauto
  have hmain : calc_A2_1 (some w) (some b) (some p) (some c) none =
      if w + b > 50 then some 100
      else if p > 50 then some 80
      else if c > 50 then some 50
      else if w + b + p + c ≤ 0 then none
      else some ((1 * (w + b) + 0.8 * p + 0.5 * c) / max (w + b + p + c) 1 * 100) := by
    simp only [calc_A2_1, hguard, if_true, nz, Option.getD_some]
  refine ⟨hmain, ?_, ?_, ?_, ?_⟩
  · intro h1 h2 h3 h4
    have h5 : ¬ w + b + p + c ≤ 0 := by linarith
    rw [hmain, if_neg h1, if_neg h2, if_neg h3, if_neg h5, max_eq_left h4]
  · norm_num [calc_A2_1, isPos, nz]
  · norm_num [calc_A2_1, isPos, nz]
  · norm_num [calc_A2_1, isPos, nz]

/-- Witness for C6 at the spec's blended case `walk=20, bike=10, pt=30, car=40`. -/
theorem calc_A2_1_transport_mode_witness :
    ((0 : ℚ) < 20 ∨ (0 : ℚ) < 10 ∨ (0 : ℚ) < 30 ∨ (0 : ℚ) < 40) ∧
    calc_A2_1 (some 20) (some 10) (some 30) (some 40) none = some 74 :=
  ⟨Or.inl (by norm_num),
   (calc_A2_1_transport_mode 20 10 30 40 (Or.inl (by norm_num))).2.2.2.2⟩

/-- Counterexample to claim C3 as stated: program `LAPIS_PUB` assigns the
override `0.0` to indicator `A1.2`; with `A1.2` the only present
indicator (value `50`), `compute_attribute_total` returns `0`, not `50`. -/
theorem compute_attribute_total_zero_override_counterexample :
    compute_attribute_total "LAPIS_PUB" "A1"
      [("A1.1", none), ("A1.2", some 50), ("A1.3", none), ("A1.4", none), ("A1.5", none)] = 0 ∧
    (0 : ℚ) ≠ 50 := by
  constructor
  · norm_num [compute_attribute_total, get_indicator_weights, attr_weights_of,
      PROGRAM_CONFIG, dict_get]
    decide
  · norm_num

/-- Claim C3 (amended): with exactly one present indicator of value `V`
and a positive configured weight for it (`1` by default), the weighted
average collapses to `V` whatever that weight is. -/
theorem compute_attribute_total_single_present (pid attr : String)
    (l₁ l₂ : List (String × Option ℚ)) (k : String) (V : ℚ)
    (h₁ : ∀ q ∈ l₁, q.2 = none) (h₂ : ∀ q ∈ l₂, q.2 = none)
    (hw : 0 < (dict_get (get_indicator_weights pid attr (l₁ ++ (k, some V) :: l₂)) k).getD 1) :
    compute_attribute_total pid attr (l₁ ++ (k, some V) :: l₂) = V := by
  have hne : (l₁ ++ (k, some V) :: l₂).isEmpty = false := by
    cases l₁ <;> rfl
  rw [compute_attribute_total, hne]
  simp only [Bool.false_eq_true, if_false]
  rw [List.foldl_append, attr_fold_skip _ _ _ h₁, List.foldl_cons,
    attr_fold_skip _ _ _ h₂]
  simp only [zero_add]
  rw [if_pos hw]
  exact mul_div_cancel_left₀ V hw.ne'

/-- Witness for C3 (amended) on program `OTRO`, indicator `A1.5` with
value `42`, the sole present entry of a two-entry map. -/
theorem compute_attribute_total_single_present_witness :
    0 < (dict_get (get_indicator_weights "OTRO" "A1"
          ([(("A1.1" : String), (none : Option ℚ))] ++ ("A1.5", some 42) :: [])) "A1.5").getD 1 ∧
    compute_attribute_total "OTRO" "A1"
      ([(("A1.1" : String), (none : Option ℚ))] ++ ("A1.5", some 42) :: []) = 42 :=
  ⟨by norm_num [get_indicator_weights, attr_weights_of, PROGRAM_CONFIG, dict_get],
   compute_attribute_total_single_present "OTRO" "A1" [("A1.1", none)] [] "A1.5" 42
     (by simp) (by simp)
     (by norm_num [get_indicator_weights, attr_weights_of, PROGRAM_CONFIG, dict_get])⟩

/-- Claim C4: a program id absent from `PROGRAM_CONFIG` is evaluated with
indicator weights all `1`, the normalized common section weights, and
produces exactly the totals-and-global report of the neutral program
`"OTRO"` on the same indicator maps (the model is total, so no exception
can be raised). -/
theorem unknown_program_same_as_OTRO (pid attr : String)
    (inds i1 i2 i3 i4 : List (String × Option ℚ))
    (scores : List (String × Option ℚ))
    (h : dict_get PROGRAM_CONFIG pid = none) :
    get_indicator_weights pid attr inds = inds.map (fun p => (p.1, (1 : ℚ))) ∧
    get_indicator_weights pid attr inds = get_indicator_weights "OTRO" attr inds ∧
    get_section_weights pid = normalize_weights COMMON_SECTION_WEIGHTS ∧
    get_section_weights pid = get_section_weights "OTRO" ∧
    compute_attribute_total pid attr inds = compute_attribute_total "OTRO" attr inds ∧
    compute_global_score pid scores = compute_global_score "OTRO" scores ∧
    evaluate_totals pid i1 i2 i3 i4 = evaluate_totals "OTRO" i1 i2 i3 i4 := by
  have haw : ∀ a : String, attr_weights_of pid a = [] := by
    intro a
    simp [attr_weights_of, h]
  have hawO : ∀ a : String, attr_weights_of "OTRO" a = [] := fun a => rfl
  have hiw : ∀ (a : String) (il : List (String × Option ℚ)),
      get_indicator_weights pid a il = il.map (fun p => (p.1, (1 : ℚ))) := by
    intro a il
    rw [get_indicator_weights, haw a]
    rfl
  have hiwO : ∀ (a : String) (il : List (String × Option ℚ)),
      get_indicator_weights "OTRO" a il = il.map (fun p => (p.1, (1 : ℚ))) := by
    intro a il
    rw [get_indicator_weights, hawO a]
    rfl
  have hrs : raw_section_weights pid = COMMON_SECTION_WEIGHTS := by
    simp [raw_section_weights, h]
  have hrsO : raw_section_weights "OTRO" = COMMON_SECTION_WEIGHTS := rfl
  have hat : ∀ (a : String) (il : List (String × Option ℚ)),
      compute_attribute_total pid a il = compute_attribute_total "OTRO" a il := by
    intro a il
    rw [compute_attribute_total, compute_attribute_total, hiw a il, hiwO a il]
  have hgs : ∀ s : List (String × Option ℚ),
      compute_global_score pid s = compute_global_score "OTRO" s := by
    intro s
    rw [compute_global_score, compute_global_score, hrs, hrsO]
  refine ⟨hiw attr inds, ?_, ?_, ?_, hat attr inds, hgs scores, ?_⟩
  · rw [hiw attr inds, hiwO attr inds]
  · rw [get_section_weights, hrs]
  · rw [get_section_weights, get_section_weights, hrs, hrsO]
  · rw [evaluate_totals, evaluate_totals, hat "A1" i1, hat "A2" i2, hat "A3" i3,
      hat "A4" i4, hgs]

/-- Witness for C4 at the unknown program id `"DESCONOCIDO"`. -/
theorem unknown_program_same_as_OTRO_witness :
    dict_get PROGRAM_CONFIG "DESCONOCIDO" = none ∧
    (get_indicator_weights "DESCONOCIDO" "A1" [("A1.1", some 50)] =
        [("A1.1", some (50 : ℚ))].map (fun p => (p.1, (1 : ℚ))) ∧
     get_indicator_weights "DESCONOCIDO" "A1" [("A1.1", some 50)] =
        get_indicator_weights "OTRO" "A1" [("A1.1", some 50)] ∧
     get_section_weights "DESCONOCIDO" = normalize_weights COMMON_SECTION_WEIGHTS ∧
     get_section_weights "DESCONOCIDO" = get_section_weights "OTRO" ∧
     compute_attribute_total "DESCONOCIDO" "A1" [("A1.1", some 50)] =
        compute_attribute_total "OTRO" "A1" [("A1.1", some 50)] ∧
     compute_global_score "DESCONOCIDO" [("Encuentro", some 50)] =
        compute_global_score "OTRO" [("Encuentro", some 50)] ∧
     evaluate_totals "DESCONOCIDO" [("A1.1", some 50)] [("A2.1", some 50)]
        [("A3.1", some 50)] [("A4.1", some 50)] =
       evaluate_totals "OTRO" [("A1.1", some 50)] [("A2.1", some 50)]
        [("A3.1", some 50)] [("A4.1", some 50)]) :=
  ⟨rfl, unknown_program_same_as_OTRO "DESCONOCIDO" "A1" [("A1.1", some 50)]
    [("A1.1", some 50)] [("A2.1", some 50)] [("A3.1", some 50)] [("A4.1", some 50)]
    [("Encuentro", some 50)] rfl⟩

/-- Claim C5: multiplying every section weight by a positive constant `c`
does not change the global score (normalization cancels the scaling when
the weight total is nonzero; when it is zero the scaling cancels in the
weighted-average ratio); `compute_global_score` is the instance of
`global_score_core` at the program's configured raw section weights. -/
theorem compute_global_score_scale_invariant
    (ws : List (String × ℚ)) (c : ℚ) (scores : List (String × Option ℚ)) (pid : String)
    (hc : 0 < c) (hnz : ¬ ∀ q ∈ ws, q.2 = 0) :
    global_score_core (ws.map (fun p => (p.1, c * p.2))) scores = global_score_core ws scores ∧
    compute_global_score pid scores = global_score_core (raw_section_weights pid) scores := by
  refine ⟨?_, rfl⟩
  by_cases htot : (ws.map (fun p => p.2)).sum = 0
  · obtain ⟨hA, hB⟩ := normalize_weights_scale_zero c ws htot
    simp only [global_score_core, hA, hB]
    cases hemp : scores.isEmpty with
    | true => rfl
    | false =>
        simp only [Bool.false_eq_true, if_false]
        have h00 : ((0 : ℚ), (0 : ℚ)) = ((c * 0 : ℚ), (c * 0 : ℚ)) := by norm_num
        conv_lhs => rw [h00]
        rw [global_fold_scale]
        dsimp only
        by_cases hd : 0 < (scores.foldl (fun acc p =>
            match p.2 with
            | none => acc
            | some value =>
                (acc.1 + (dict_get ws p.1).getD 0 * value,
                 acc.2 + (dict_get ws p.1).getD 0)) ((0 : ℚ), (0 : ℚ))).2
        · rw [if_pos (mul_pos hc hd), if_pos hd, mul_div_mul_left _ _ hc.ne']
        · have hcd : ¬ 0 < c * (scores.foldl (fun acc p =>
              match p.2 with
              | none => acc
              | some value =>
                  (acc.1 + (dict_get ws p.1).getD 0 * value,
                   acc.2 + (dict_get ws p.1).getD 0)) ((0 : ℚ), (0 : ℚ))).2 := by
            intro hpos
            apply hd
            have hq := div_pos hpos hc
            rwa [mul_div_cancel_left₀ _ hc.ne'] at hq
          rw [if_neg hcd, if_neg hd]
  · unfold global_score_core
    rw [normalize_weights_scale_ne c hc.ne' ws htot]

/-- Witness for C5: doubling the single section weight `1` leaves the
global score over one present section unchanged. -/
theorem compute_global_score_scale_invariant_witness :
    (0 : ℚ) < 2 ∧
    global_score_core ([(("Encuentro" : String), (1 : ℚ))].map (fun p => (p.1, 2 * p.2)))
        [("Encuentro", some 50)] =
      global_score_core [("Encuentro", 1)] [("Encuentro", some 50)] ∧
    compute_global_score "OTRO" [("Encuentro", some 50)] =
      global_score_core (raw_section_weights "OTRO") [("Encuentro", some 50)] := by
  have h := compute_global_score_scale_invariant [("Encuentro", 1)] 2
    [("Encuentro", some 50)] "OTRO" (by norm_num)
    (fun hall => by have := hall ("Encuentro", 1) (by simp); norm_num at this)
  exact ⟨by norm_num, h.1, h.2⟩
